import Mathlib

/-!
Verification of the `tarantool.lts.space` facade (`src/tarantool/lts/space.py`).

The module is a thin object-oriented wrapper: a `Space` holds a reference to a
connection object and a space number resolved once at construction, and each
method delegates to the connection, substituting the connection's configured
`return_tuple` default when the caller leaves the flag unspecified.

The embedding below models:
  * dynamic values passed through the facade (`Scalar`, `Value`);
  * the observable state of a connection at a given moment (`ConnState`) and a
    heap of connections (`World`), so that "read at call time" is distinguishable
    from "read at construction";
  * each delegated request as a `ConnCall` datum, so the arguments a method
    forwards are observable;
  * each method's Python return value (`ret`, where `none` is Python `None`),
    the delegated calls it makes, and the object state it leaves behind.
-/

/-- Scalar record fields: integers or strings (per the docstrings of
`replace`/`store`/`insert`). -/
inductive Scalar where
  | int (n : Int)
  | str (s : String)
  deriving DecidableEq, Repr

/-- Dynamic values that flow through the facade unmodified: scalars (used for
keys and also for option values such as index/offset/limit), record tuples,
lists of tuples (the `values` argument of `select`), booleans and Python
`None`. -/
inductive Value where
  | scalar (s : Scalar)
  | tup (r : List Scalar)
  | tuples (ts : List (List Scalar))
  | bool (b : Bool)
  | pynone
  deriving DecidableEq, Repr

/-- Modelled from the spec: the flag constants are imported from
`tarantool.lts.const`, a module of this repository that is not under `src/`;
the facade only ORs them together, so they are represented by the three
distinct protocol bit values. -/
def BOX_RETURN_TUPLE : Nat := 1

/-- Modelled from the spec: see `BOX_RETURN_TUPLE`. -/
def BOX_ADD : Nat := 2

/-- Modelled from the spec: see `BOX_RETURN_TUPLE`. -/
def BOX_REPLACE : Nat := 4

/-- One delegated request to the connection, carrying exactly the arguments
the facade forwards: `_insert(space_no, values, flags)`,
`delete(space_no, key, return_tuple)`, `update(space_no, key, op_list,
return_tuple)`, `select(space_no, values, index, offset, limit)` and
`call(func_name, *args, **kwargs)`. -/
inductive ConnCall where
  | insertC (space_no : Nat) (values : Value) (flags : Nat)
  | deleteC (space_no : Nat) (key : Value) (return_tuple : Bool)
  | updateC (space_no : Nat) (key : Value) (op_list : List Value) (return_tuple : Bool)
  | selectC (space_no : Nat) (values : Value) (index : Value) (offset : Value) (limit : Value)
  | callC (func_name : String) (args : List Value) (kwargs : List (String × Value))
  deriving DecidableEq, Repr

/-- The space identifier a `ConnCall` transmits, if it transmits one
(`call` forwards no space identifier). -/
def ConnCall.spaceNoOf : ConnCall → Option Nat
  | .insertC no _ _ => some no
  | .deleteC no _ _ => some no
  | .updateC no _ _ _ => some no
  | .selectC no _ _ _ _ => some no
  | .callC _ _ _ => none

/-- Observable state of a connection object at one moment: its schema lookup
`schema.space_no` (`none` models the lookup raising for an unknown space), its
currently configured `return_tuple` default, and how it answers a delegated
request (the collaborator is opaque, so its answer is an arbitrary function of
the request). -/
structure ConnState where
  schema_space_no : Value → Option Nat
  return_tuple : Bool
  respond : ConnCall → Value

/-- Heap of connection objects, indexed by reference.  A `Space` stores a
reference; dereferencing at call time may observe a different `ConnState` than
the one seen at construction. -/
abbrev World := Nat → ConnState

/-- The facade object: a reference to the connection and the space number
resolved at construction (`self.connection` and `self.space_no`). -/
structure Space where
  connection : Nat
  space_no : Nat
  deriving DecidableEq, Repr

/-- What one method invocation does: the delegated calls it issues in order,
its Python return value (`none` is Python `None`), and the state of `self`
when it returns. -/
structure MethodResult where
  calls : List ConnCall
  ret : Option Value
  selfAfter : Space
  deriving DecidableEq, Repr

/-- `Space.__init__`: stores the connection reference and
`connection.schema.space_no(space_name)`; a failing lookup propagates
(modelled as `none`). -/
def Space.init (w : World) (connection : Nat) (space_name : Value) : Option Space :=
  match (w connection).schema_space_no space_name with
  | some no => some { connection := connection, space_no := no }
  | none => none

/-- `Space.replace`: resolves an unspecified `return_tuple` against
`self.connection.return_tuple`, then calls
`self.connection._insert(self.space_no, values, rtbit | BOX_REPLACE)`.
The source has no `return` statement, so the Python return value is `None`. -/
def Space.replace (w : World) (self : Space) (values : Value)
    (return_tuple : Option Bool) : MethodResult :=
  let conn := w self.connection
  let rt := match return_tuple with
    | none => conn.return_tuple
    | some b => b
  let c := ConnCall.insertC self.space_no values
    ((if rt then BOX_RETURN_TUPLE else 0) ||| BOX_REPLACE)
  { calls := [c], ret := none, selfAfter := self }

/-- `Space.store`: like `replace` but with no extra flag bit.  The source has
no `return` statement, so the Python return value is `None`. -/
def Space.store (w : World) (self : Space) (values : Value)
    (return_tuple : Option Bool) : MethodResult :=
  let conn := w self.connection
  let rt := match return_tuple with
    | none => conn.return_tuple
    | some b => b
  let c := ConnCall.insertC self.space_no values
    (if rt then BOX_RETURN_TUPLE else 0)
  { calls := [c], ret := none, selfAfter := self }

/-- `Space.insert`: like `replace` but ORs in `BOX_ADD`.  The source has no
`return` statement, so the Python return value is `None`. -/
def Space.insert (w : World) (self : Space) (values : Value)
    (return_tuple : Option Bool) : MethodResult :=
  let conn := w self.connection
  let rt := match return_tuple with
    | none => conn.return_tuple
    | some b => b
  let c := ConnCall.insertC self.space_no values
    ((if rt then BOX_RETURN_TUPLE else 0) ||| BOX_ADD)
  { calls := [c], ret := none, selfAfter := self }

/-- `Space.delete`: resolves the flag the same way and returns
`self.connection.delete(self.space_no, key, return_tuple)`. -/
def Space.delete (w : World) (self : Space) (key : Value)
    (return_tuple : Option Bool) : MethodResult :=
  let conn := w self.connection
  let rt := match return_tuple with
    | none => conn.return_tuple
    | some b => b
  let c := ConnCall.deleteC self.space_no key rt
  { calls := [c], ret := some (conn.respond c), selfAfter := self }

/-- `Space.update`: resolves the flag the same way and returns
`self.connection.update(self.space_no, key, op_list, return_tuple)`. -/
def Space.update (w : World) (self : Space) (key : Value) (op_list : List Value)
    (return_tuple : Option Bool) : MethodResult :=
  let conn := w self.connection
  let rt := match return_tuple with
    | none => conn.return_tuple
    | some b => b
  let c := ConnCall.updateC self.space_no key op_list rt
  { calls := [c], ret := some (conn.respond c), selfAfter := self }

/-- Python `kwargs.get(k, dflt)` over the keyword-argument mapping (keyword
arguments have distinct names, so first-match lookup is the dict lookup). -/
def kwget (kwargs : List (String × Value)) (k : String) (dflt : Value) : Value :=
  match kwargs.find? (fun p => p.1 == k) with
  | some p => p.2
  | none => dflt

/-- `Space.select` body: reads `index`, `offset`, `limit` from `**kwargs` with
defaults `0`, `0`, `0xffffffff`, then returns
`self.connection.select(self.space_no, values, index, offset, limit)`. -/
def Space.select (w : World) (self : Space) (values : Value)
    (kwargs : List (String × Value)) : MethodResult :=
  let conn := w self.connection
  let index := kwget kwargs "index" (Value.scalar (Scalar.int 0))
  let offset := kwget kwargs "offset" (Value.scalar (Scalar.int 0))
  let limit := kwget kwargs "limit" (Value.scalar (Scalar.int 0xffffffff))
  let c := ConnCall.selectC self.space_no values index offset limit
  { calls := [c], ret := some (conn.respond c), selfAfter := self }

/-- `Space.call`: returns `self.connection.call(func_name, *args, **kwargs)`
with everything forwarded unchanged. -/
def Space.call (w : World) (self : Space) (func_name : String)
    (args : List Value) (kwargs : List (String × Value)) : MethodResult :=
  let conn := w self.connection
  let c := ConnCall.callC func_name args kwargs
  { calls := [c], ret := some (conn.respond c), selfAfter := self }

/-- Outcome of binding a Python call site: either the bound invocation runs,
or argument binding raises `TypeError`. -/
inductive CallOutcome where
  | ok (r : MethodResult)
  | typeError
  deriving DecidableEq, Repr

/-- Python call-site binding for `def select(self, values, **kwargs)`: the
signature accepts exactly one positional argument after `self`; any additional
positional argument (an attempt to pass index/offset/limit positionally) makes
binding raise `TypeError` before the body runs. -/
def Space.selectInvoke (w : World) (self : Space) (pos : List Value)
    (kwargs : List (String × Value)) : CallOutcome :=
  match pos with
  | [values] => CallOutcome.ok (Space.select w self values kwargs)
  | _ => CallOutcome.typeError

/-- Python call-site binding for a parameter declared `return_tuple=None`:
an omitted argument (`none`) binds to the declared default `None`
(`Option.none` in the embedding), an explicit argument binds to itself. -/
def bindReturnTuple (arg : Option (Option Bool)) : Option Bool :=
  match arg with
  | none => none
  | some v => v

/-- Demonstration connection state: the schema knows the space named "users"
as number 7, the configured return-tuple default is on, and every request is
answered with the value 42. -/
def demoConn : ConnState where
  schema_space_no := fun v =>
    if v = Value.scalar (Scalar.str "users") then some 7 else none
  return_tuple := true
  respond := fun _ => Value.scalar (Scalar.int 42)

/-- Demonstration connection state identical to `demoConn` except that the
configured return-tuple default is off. -/
def demoConnOff : ConnState where
  schema_space_no := fun v =>
    if v = Value.scalar (Scalar.str "users") then some 7 else none
  return_tuple := false
  respond := fun _ => Value.scalar (Scalar.int 42)

/-- World in which every connection reference is `demoConn`. -/
def demoWorld : World := fun _ => demoConn

/-- World in which every connection reference is `demoConnOff`. -/
def demoWorldOff : World := fun _ => demoConnOff

/-- The world `w` with connection `c`'s configured `return_tuple` default
replaced by `b`; schema and responses are unchanged.  Used to state that a
method never consults the default. -/
def setDefault (w : World) (c : Nat) (b : Bool) : World :=
  fun n => if n = c then { w n with return_tuple := b } else w n

/-- C1: the spec states that `replace`, `store` and `insert` return the Result
of the delegated connection call.  The code issues the delegated `_insert`
request (which the connection answers with a Response, here 42) but each of the
three method bodies lacks a return statement, so the method's Python return
value is `None` — contradicting the methods' own docstrings
(`:rtype: Response instance`) and the pattern `delete`/`update` follow. -/
theorem replace_store_insert_drop_response :
    (Space.replace demoWorld ⟨0, 7⟩ (Value.tup [Scalar.int 1]) (some true)).ret = none
  ∧ (Space.store demoWorld ⟨0, 7⟩ (Value.tup [Scalar.int 1]) (some true)).ret = none
  ∧ (Space.insert demoWorld ⟨0, 7⟩ (Value.tup [Scalar.int 1]) (some true)).ret = none
  ∧ (Space.replace demoWorld ⟨0, 7⟩ (Value.tup [Scalar.int 1]) (some true)).calls
      = [ConnCall.insertC 7 (Value.tup [Scalar.int 1]) (BOX_RETURN_TUPLE ||| BOX_REPLACE)]
  ∧ demoConn.respond
      (ConnCall.insertC 7 (Value.tup [Scalar.int 1]) (BOX_RETURN_TUPLE ||| BOX_REPLACE))
      = Value.scalar (Scalar.int 42)
  ∧ (Space.delete demoWorld ⟨0, 7⟩ (Value.tup [Scalar.int 1]) (some true)).ret
      = some (Value.scalar (Scalar.int 42)) :=
  ⟨rfl, rfl, rfl, rfl, rfl, rfl⟩

/-- C2: when the caller omits `return_tuple`, each of the five flagged
operations behaves exactly as if the caller had passed the `return_tuple`
default of the connection state observed at call time (world `w1`), even when
the handle was constructed under a different connection state (world `w0`). -/
theorem omitted_flag_uses_calltime_default
    (w0 w1 : World) (c : Nat) (name : Value) (s : Space)
    (h : Space.init w0 c name = some s)
    (values key : Value) (op_list : List Value) :
    Space.replace w1 s values none
      = Space.replace w1 s values (some ((w1 c).return_tuple))
  ∧ Space.store w1 s values none
      = Space.store w1 s values (some ((w1 c).return_tuple))
  ∧ Space.insert w1 s values none
      = Space.insert w1 s values (some ((w1 c).return_tuple))
  ∧ Space.delete w1 s key none
      = Space.delete w1 s key (some ((w1 c).return_tuple))
  ∧ Space.update w1 s key op_list none
      = Space.update w1 s key op_list (some ((w1 c).return_tuple)) := by
  have hc : s.connection = c := by
    unfold Space.init at h
    cases hs : (w0 c).schema_space_no name with
    | none => rw [hs] at h; cases h
    | some no => rw [hs] at h; cases h; rfl
  rw [← hc]
  exact ⟨rfl, rfl, rfl, rfl, rfl⟩

/-- Witness for C2: a handle for space "users" built while the connection's
default was off behaves, when invoked while the default is on, exactly as an
explicit `return_tuple=True` call. -/
theorem omitted_flag_uses_calltime_default_witness :
    Space.init demoWorldOff 0 (Value.scalar (Scalar.str "users")) = some ⟨0, 7⟩
  ∧ Space.delete demoWorld ⟨0, 7⟩ (Value.scalar (Scalar.int 5)) none
      = Space.delete demoWorld ⟨0, 7⟩ (Value.scalar (Scalar.int 5)) (some true) :=
  ⟨rfl,
   (omitted_flag_uses_calltime_default demoWorldOff demoWorld 0
      (Value.scalar (Scalar.str "users")) ⟨0, 7⟩ rfl
      (Value.tup []) (Value.scalar (Scalar.int 5)) []).2.2.2.1⟩

/-- C3: with an explicit boolean flag (including `false`), each of the five
flagged operations forwards exactly that flag — it appears verbatim in the
delegated call — and never consults the connection default: replacing that
default by any other value leaves the operation's behaviour unchanged. -/
theorem explicit_flag_forwarded_exactly
    (w : World) (s : Space) (b d : Bool) (values key : Value) (op_list : List Value) :
    (Space.replace w s values (some b)).calls
      = [ConnCall.insertC s.space_no values
          ((if b then BOX_RETURN_TUPLE else 0) ||| BOX_REPLACE)]
  ∧ (Space.store w s values (some b)).calls
      = [ConnCall.insertC s.space_no values (if b then BOX_RETURN_TUPLE else 0)]
  ∧ (Space.insert w s values (some b)).calls
      = [ConnCall.insertC s.space_no values
          ((if b then BOX_RETURN_TUPLE else 0) ||| BOX_ADD)]
  ∧ (Space.delete w s key (some b)).calls = [ConnCall.deleteC s.space_no key b]
  ∧ (Space.update w s key op_list (some b)).calls
      = [ConnCall.updateC s.space_no key op_list b]
  ∧ Space.replace (setDefault w s.connection d) s values (some b)
      = Space.replace w s values (some b)
  ∧ Space.store (setDefault w s.connection d) s values (some b)
      = Space.store w s values (some b)
  ∧ Space.insert (setDefault w s.connection d) s values (some b)
      = Space.insert w s values (some b)
  ∧ Space.delete (setDefault w s.connection d) s key (some b)
      = Space.delete w s key (some b)
  ∧ Space.update (setDefault w s.connection d) s key op_list (some b)
      = Space.update w s key op_list (some b) := by
  refine ⟨rfl, rfl, rfl, rfl, rfl, ?_, ?_, ?_, ?_, ?_⟩ <;>
    simp [Space.replace, Space.store, Space.insert, Space.delete, Space.update,
      setDefault]

/-- C4: `replace`, `store` and `insert` all delegate to the single `_insert`
primitive with the same `(space_no, values)` pair, differing only in the flags
word: `BOX_REPLACE`, nothing, and `BOX_ADD` respectively, each ORed with
`BOX_RETURN_TUPLE` exactly when the resolved return-tuple value is true. -/
theorem insert_family_flags
    (w : World) (s : Space) (values : Value) (return_tuple : Option Bool) :
    (Space.replace w s values return_tuple).calls
      = [ConnCall.insertC s.space_no values
          ((if return_tuple.getD (w s.connection).return_tuple
              then BOX_RETURN_TUPLE else 0) ||| BOX_REPLACE)]
  ∧ (Space.store w s values return_tuple).calls
      = [ConnCall.insertC s.space_no values
          (if return_tuple.getD (w s.connection).return_tuple
              then BOX_RETURN_TUPLE else 0)]
  ∧ (Space.insert w s values return_tuple).calls
      = [ConnCall.insertC s.space_no values
          ((if return_tuple.getD (w s.connection).return_tuple
              then BOX_RETURN_TUPLE else 0) ||| BOX_ADD)] := by
  cases return_tuple <;> exact ⟨rfl, rfl, rfl⟩

/-- C5: `select` accepts exactly one positional argument (the keys); any
attempt to pass index/offset/limit positionally after it makes call binding
raise `TypeError`, while the same options passed by name are accepted and
reach the method body. -/
theorem select_rejects_positional_options
    (w : World) (s : Space) (pos : List Value) (kwargs : List (String × Value))
    (h : 2 ≤ pos.length) :
    Space.selectInvoke w s pos kwargs = CallOutcome.typeError
  ∧ ∀ (values : Value) (kw : List (String × Value)),
      Space.selectInvoke w s [values] kw
        = CallOutcome.ok (Space.select w s values kw) := by
  refine ⟨?_, fun values kw => rfl⟩
  match pos, h with
  | v₁ :: v₂ :: rest, _ => rfl

/-- Witness for C5: attempting to pass offset positionally after the keys is
rejected with `TypeError`. -/
theorem select_rejects_positional_options_witness :
    2 ≤ ([Value.tuples [[Scalar.int 1]], Value.scalar (Scalar.int 0)] : List Value).length
  ∧ Space.selectInvoke demoWorld ⟨0, 7⟩
      [Value.tuples [[Scalar.int 1]], Value.scalar (Scalar.int 0)] []
      = CallOutcome.typeError :=
  ⟨by decide,
   (select_rejects_positional_options demoWorld ⟨0, 7⟩
      [Value.tuples [[Scalar.int 1]], Value.scalar (Scalar.int 0)] []
      (by decide)).1⟩

/-- C6: each `select` option not supplied by name is forwarded at its default
(index 0, offset 0, limit 0xffffffff), while the resolved space number and the
caller's keys are forwarded unchanged in the same delegated call. -/
theorem select_option_defaults
    (w : World) (s : Space) (values : Value) (kwargs : List (String × Value)) :
    (kwargs.find? (fun p => p.1 == "index") = none →
      (Space.select w s values kwargs).calls
        = [ConnCall.selectC s.space_no values
            (Value.scalar (Scalar.int 0))
            (kwget kwargs "offset" (Value.scalar (Scalar.int 0)))
            (kwget kwargs "limit" (Value.scalar (Scalar.int 0xffffffff)))])
  ∧ (kwargs.find? (fun p => p.1 == "offset") = none →
      (Space.select w s values kwargs).calls
        = [ConnCall.selectC s.space_no values
            (kwget kwargs "index" (Value.scalar (Scalar.int 0)))
            (Value.scalar (Scalar.int 0))
            (kwget kwargs "limit" (Value.scalar (Scalar.int 0xffffffff)))])
  ∧ (kwargs.find? (fun p => p.1 == "limit") = none →
      (Space.select w s values kwargs).calls
        = [ConnCall.selectC s.space_no values
            (kwget kwargs "index" (Value.scalar (Scalar.int 0)))
            (kwget kwargs "offset" (Value.scalar (Scalar.int 0)))
            (Value.scalar (Scalar.int 0xffffffff))]) := by
  refine ⟨fun h => ?_, fun h => ?_, fun h => ?_⟩ <;>
    simp only [Space.select, kwget, h]

/-- Witness for C6: with only a limit supplied by name, index and offset go
out at their defaults and the named limit is honoured. -/
theorem select_option_defaults_witness :
    ([("limit", Value.scalar (Scalar.int 10))].find? (fun p => p.1 == "index") = none)
  ∧ (Space.select demoWorld ⟨0, 7⟩ (Value.tuples [[Scalar.int 1]])
      [("limit", Value.scalar (Scalar.int 10))]).calls
      = [ConnCall.selectC 7 (Value.tuples [[Scalar.int 1]])
          (Value.scalar (Scalar.int 0))
          (kwget [("limit", Value.scalar (Scalar.int 10))] "offset"
            (Value.scalar (Scalar.int 0)))
          (kwget [("limit", Value.scalar (Scalar.int 10))] "limit"
            (Value.scalar (Scalar.int 0xffffffff)))] :=
  ⟨rfl,
   (select_option_defaults demoWorld ⟨0, 7⟩ (Value.tuples [[Scalar.int 1]])
      [("limit", Value.scalar (Scalar.int 10))]).1 rfl⟩

/-- C7: constructing a handle stores exactly the identifier the connection's
schema lookup returns for the given name — what a direct lookup yields — and
every delegated call that transmits a space identifier transmits that stored
one. -/
theorem init_stores_schema_resolution
    (w0 : World) (c : Nat) (name : Value) (no : Nat)
    (h : (w0 c).schema_space_no name = some no) :
    Space.init w0 c name = some { connection := c, space_no := no }
  ∧ ∀ (w : World) (values key : Value) (op_list : List Value)
      (rt : Option Bool) (kwargs : List (String × Value)),
      (Space.replace w ⟨c, no⟩ values rt).calls.map ConnCall.spaceNoOf = [some no]
    ∧ (Space.store w ⟨c, no⟩ values rt).calls.map ConnCall.spaceNoOf = [some no]
    ∧ (Space.insert w ⟨c, no⟩ values rt).calls.map ConnCall.spaceNoOf = [some no]
    ∧ (Space.delete w ⟨c, no⟩ key rt).calls.map ConnCall.spaceNoOf = [some no]
    ∧ (Space.update w ⟨c, no⟩ key op_list rt).calls.map ConnCall.spaceNoOf = [some no]
    ∧ (Space.select w ⟨c, no⟩ values kwargs).calls.map ConnCall.spaceNoOf = [some no] := by
  constructor
  · unfold Space.init
    rw [h]
  · exact fun w values key op_list rt kwargs => ⟨rfl, rfl, rfl, rfl, rfl, rfl⟩

/-- Witness for C7: the handle built for "users" stores identifier 7, and a
delete through it transmits space 7. -/
theorem init_stores_schema_resolution_witness :
    demoConn.schema_space_no (Value.scalar (Scalar.str "users")) = some 7
  ∧ Space.init demoWorld 0 (Value.scalar (Scalar.str "users"))
      = some { connection := 0, space_no := 7 } :=
  ⟨rfl,
   (init_stores_schema_resolution demoWorld 0
      (Value.scalar (Scalar.str "users")) 7 rfl).1⟩

/-- C8: every one of the seven operations leaves the handle's own state — its
connection reference and resolved space number — exactly as it was; the
identifier set at construction is never mutated. -/
theorem operations_do_not_mutate_handle
    (w : World) (s : Space) (values key : Value) (op_list : List Value)
    (rt : Option Bool) (kwargs : List (String × Value))
    (fname : String) (args : List Value) :
    (Space.replace w s values rt).selfAfter = s
  ∧ (Space.store w s values rt).selfAfter = s
  ∧ (Space.insert w s values rt).selfAfter = s
  ∧ (Space.delete w s key rt).selfAfter = s
  ∧ (Space.update w s key op_list rt).selfAfter = s
  ∧ (Space.select w s values kwargs).selfAfter = s
  ∧ (Space.call w s fname args kwargs).selfAfter = s :=
  ⟨rfl, rfl, rfl, rfl, rfl, rfl, rfl⟩

/-- C9: keyword options other than index/offset/limit are silently ignored by
`select`: the invocation binds and runs without error, and behaves exactly as
an invocation with no options at all, every recognized option falling back to
its default. -/
theorem select_ignores_unknown_options
    (w : World) (s : Space) (values : Value) (kwargs : List (String × Value))
    (h : ∀ p ∈ kwargs, p.1 ≠ "index" ∧ p.1 ≠ "offset" ∧ p.1 ≠ "limit") :
    Space.selectInvoke w s [values] kwargs
      = CallOutcome.ok (Space.select w s values []) := by
  have hk : ∀ k, k = "index" ∨ k = "offset" ∨ k = "limit" →
      kwargs.find? (fun p => p.1 == k) = none := by
    intro k hks
    rw [List.find?_eq_none]
    intro p hp
    have hp3 := h p hp
    rcases hks with h1 | h1 | h1 <;> subst h1 <;> simp_all
  show CallOutcome.ok (Space.select w s values kwargs)
      = CallOutcome.ok (Space.select w s values [])
  simp only [Space.select, kwget, hk "index" (Or.inl rfl),
    hk "offset" (Or.inr (Or.inl rfl)), hk "limit" (Or.inr (Or.inr rfl)),
    List.find?_nil]

/-- Witness for C9: a misspelled option name ("limt") raises no error and has
no effect. -/
theorem select_ignores_unknown_options_witness :
    (∀ p ∈ [("limt", Value.scalar (Scalar.int 3))],
      p.1 ≠ "index" ∧ p.1 ≠ "offset" ∧ p.1 ≠ "limit")
  ∧ Space.selectInvoke demoWorld ⟨0, 7⟩ [Value.tuples [[Scalar.int 1]]]
      [("limt", Value.scalar (Scalar.int 3))]
      = CallOutcome.ok (Space.select demoWorld ⟨0, 7⟩ (Value.tuples [[Scalar.int 1]]) []) :=
  ⟨by decide,
   select_ignores_unknown_options demoWorld ⟨0, 7⟩ (Value.tuples [[Scalar.int 1]])
      [("limt", Value.scalar (Scalar.int 3))] (by decide)⟩

/-- C10: an explicit `None` argument for `return_tuple` binds to the very same
parameter value as omitting the argument, so for all five flagged operations
the two calls are indistinguishable; both resolve to the connection's default,
and the flag actually forwarded is that boolean default — a literal `None`
can never be forwarded. -/
theorem explicit_none_equals_omitted
    (w : World) (s : Space) (values key : Value) (op_list : List Value) :
    bindReturnTuple (some none) = bindReturnTuple none
  ∧ Space.replace w s values (bindReturnTuple (some none))
      = Space.replace w s values (bindReturnTuple none)
  ∧ Space.store w s values (bindReturnTuple (some none))
      = Space.store w s values (bindReturnTuple none)
  ∧ Space.insert w s values (bindReturnTuple (some none))
      = Space.insert w s values (bindReturnTuple none)
  ∧ Space.delete w s key (bindReturnTuple (some none))
      = Space.delete w s key (bindReturnTuple none)
  ∧ Space.update w s key op_list (bindReturnTuple (some none))
      = Space.update w s key op_list (bindReturnTuple none)
  ∧ (Space.delete w s key (bindReturnTuple (some none))).calls
      = [ConnCall.deleteC s.space_no key ((w s.connection).return_tuple)]
  ∧ (Space.update w s key op_list (bindReturnTuple (some none))).calls
      = [ConnCall.updateC s.space_no key op_list ((w s.connection).return_tuple)] :=
  ⟨rfl, rfl, rfl, rfl, rfl, rfl, rfl, rfl⟩
